import Mathlib

/-!
Verification of the TeTeX Obsidian plugin (src/main.ts): the
fragment → cache-key → cached-artifact resolution logic, shallowly embedded.

The embedding covers:
* `TexPluginSettings` — the settings record (`interface TexPluginSettings`);
* `generateTeXDocument` — document assembly;
* `generateHash` — SHA-256 hex digest (Node `createHash('sha256')...digest('hex')`),
  implemented here from FIPS 180-4 over `Nat` bytes;
* `process` — the code-block processor, modelled as a pure function over an
  explicit file-system state (`FS`) and an environment of external responses
  (`Host`), returning the updated file system and a `Trace` of the observable
  effects (network requests, folder creations, binary writes, render calls).
  A `fetch` has three outcomes (`FetchOutcome`): a rejected promise is
  uncaught in the source and aborts the invocation before `renderImage`.
-/

/-- Settings record (`interface TexPluginSettings` in src/main.ts).
`texImageDirectory : Option String` models the `string | null` field. -/
structure TexPluginSettings where
  server : String
  apiPath : String
  header : List String
  documentHeader : List String
  documentFooter : List String
  packages : List String
  scale : String
  texImageDirectory : Option String
  markdownAttachmentSubdirectory : String

/-- Response payload of the convert request (`interface Result` in src/main.ts).
A `none` field models an absent JSON field (JS `undefined`). -/
structure Result where
  imageURL : Option String
  error : Option String

/-- `DEFAULT_SETTINGS` in src/main.ts. -/
def DEFAULT_SETTINGS : TexPluginSettings :=
  ⟨"https://tex.tools", "/api/convert",
   ["\\documentclass{article}", "\\pagestyle{empty}"],
   ["\\begin{document}", "\\mathlig{->}\x7b\\rightarrow\x7d", "\\mathlig{|-}\x7b\\vdash\x7d",
    "\\mathlig{=>}\x7b\\Rightarrow\x7d", "\\mathligson"],
   ["\\end{document}"],
   ["\\usepackage{floatflt,amsmath,amssymb}", "\\usepackage[ligature, inference]{semantic}"],
   "125%", some "vault-subdirectory", ".images"⟩

/-- `generateTeXDocument` in src/main.ts:
`[...header, ...packages, ...documentHeader, fragment.trim(), ...documentFooter].join('\n').trim()`. -/
def generateTeXDocument (s : TexPluginSettings) (fragment : String) : String :=
  (String.intercalate "\n" (s.header ++ s.packages ++ s.documentHeader ++
    [fragment.trim] ++ s.documentFooter)).trim

/-! ### SHA-256 (FIPS 180-4), over `Nat` with explicit reduction mod 2^32 -/

/-- Reduce a `Nat` to a 32-bit word. -/
def w32 (n : Nat) : Nat := n % 4294967296

/-- Right rotation of a 32-bit word by `k` bits. -/
def rotr (k n : Nat) : Nat := w32 (n / 2 ^ k + n % 2 ^ k * 2 ^ (32 - k))

/-- Right shift by `k` bits. -/
def shr (k n : Nat) : Nat := n / 2 ^ k

/-- 32-bit bitwise complement. -/
def bnot32 (n : Nat) : Nat := Nat.xor n 4294967295

/-- SHA-256 choice function. -/
def ch (x y z : Nat) : Nat := Nat.xor (Nat.land x y) (Nat.land (bnot32 x) z)

/-- SHA-256 majority function. -/
def maj (x y z : Nat) : Nat :=
  Nat.xor (Nat.xor (Nat.land x y) (Nat.land x z)) (Nat.land y z)

/-- SHA-256 Σ₀. -/
def bigSigma0 (x : Nat) : Nat := Nat.xor (Nat.xor (rotr 2 x) (rotr 13 x)) (rotr 22 x)

/-- SHA-256 Σ₁. -/
def bigSigma1 (x : Nat) : Nat := Nat.xor (Nat.xor (rotr 6 x) (rotr 11 x)) (rotr 25 x)

/-- SHA-256 σ₀. -/
def smallSigma0 (x : Nat) : Nat := Nat.xor (Nat.xor (rotr 7 x) (rotr 18 x)) (shr 3 x)

/-- SHA-256 σ₁. -/
def smallSigma1 (x : Nat) : Nat := Nat.xor (Nat.xor (rotr 17 x) (rotr 19 x)) (shr 10 x)

/-- Big-endian byte serialization of `n` into `numBytes` bytes. -/
def toBytesBE (numBytes n : Nat) : List Nat :=
  (List.range numBytes).map (fun i => n / 2 ^ (8 * (numBytes - 1 - i)) % 256)

/-- SHA-256 padding: append `0x80`, zero bytes to 56 mod 64, then the 64-bit
big-endian bit length. -/
def padMessage (msg : List Nat) : List Nat :=
  msg ++ [128] ++ List.replicate ((119 - msg.length % 64) % 64) 0 ++
    toBytesBE 8 (msg.length * 8)

/-- Group bytes into big-endian 32-bit words. -/
def bytesToWords : List Nat → List Nat
  | a :: b :: c :: d :: rest => (a * 16777216 + b * 65536 + c * 256 + d) :: bytesToWords rest
  | _ => []

/-- The 64 SHA-256 round constants. -/
def shaK : List Nat :=
  [1116352408, 1899447441, 3049323471, 3921009573, 961987163, 1508970993,
   2453635748, 2870763221, 3624381080, 310598401, 607225278, 1426881987,
   1925078388, 2162078206, 2614888103, 3248222580, 3835390401, 4022224774,
   264347078, 604807628, 770255983, 1249150122, 1555081692, 1996064986,
   2554220882, 2821834349, 2952996808, 3210313671, 3336571891, 3584528711,
   113926993, 338241895, 666307205, 773529912, 1294757372, 1396182291,
   1695183700, 1986661051, 2177026350, 2456956037, 2730485921, 2820302411,
   3259730800, 3345764771, 3516065817, 3600352804, 4094571909, 275423344,
   430227734, 506948616, 659060556, 883997877, 958139571, 1322822218,
   1537002063, 1747873779, 1955562222, 2024104815, 2227730452, 2361852424,
   2428436474, 2756734187, 3204031479, 3329325298]

/-- SHA-256 working state: eight 32-bit words. -/
structure Sha8 where
  a : Nat
  b : Nat
  c : Nat
  d : Nat
  e : Nat
  f : Nat
  g : Nat
  h : Nat

/-- SHA-256 initial hash value. -/
def shaH0 : Sha8 :=
  ⟨1779033703, 3144134277, 1013904242, 2773480762,
   1359893119, 2600822924, 528734635, 1541459225⟩

/-- One SHA-256 compression round for round constant/schedule pair `kw`. -/
def sha256Round (st : Sha8) (kw : Nat × Nat) : Sha8 :=
  let t1 := w32 (st.h + bigSigma1 st.e + ch st.e st.f st.g + kw.1 + kw.2)
  let t2 := w32 (bigSigma0 st.a + maj st.a st.b st.c)
  ⟨w32 (t1 + t2), st.a, st.b, st.c, w32 (st.d + t1), st.e, st.f, st.g⟩

/-- Extend the 16-word message schedule by `k` further words. -/
def extendW (ws : List Nat) : Nat → List Nat
  | 0 => ws
  | k + 1 =>
    let prev := extendW ws k
    prev ++ [w32 (smallSigma1 (prev.getD (prev.length - 2) 0) + prev.getD (prev.length - 7) 0 +
      smallSigma0 (prev.getD (prev.length - 15) 0) + prev.getD (prev.length - 16) 0)]

/-- Word-wise modular addition of SHA-256 states. -/
def addSha8 (x y : Sha8) : Sha8 :=
  ⟨w32 (x.a + y.a), w32 (x.b + y.b), w32 (x.c + y.c), w32 (x.d + y.d),
   w32 (x.e + y.e), w32 (x.f + y.f), w32 (x.g + y.g), w32 (x.h + y.h)⟩

/-- SHA-256 compression of one 64-byte block into the running state. -/
def compressBlock (hs : Sha8) (block : List Nat) : Sha8 :=
  addSha8 hs ((shaK.zip (extendW (bytesToWords block) 48)).foldl sha256Round hs)

/-- Split a byte list into `n` chunks of 64 bytes. -/
def chunksOf64 : List Nat → Nat → List (List Nat)
  | _, 0 => []
  | l, k + 1 => l.take 64 :: chunksOf64 (l.drop 64) k

/-- Serialize the final SHA-256 state into 32 digest bytes. -/
def sha8ToBytes (s : Sha8) : List Nat :=
  toBytesBE 4 s.a ++ toBytesBE 4 s.b ++ toBytesBE 4 s.c ++ toBytesBE 4 s.d ++
  toBytesBE 4 s.e ++ toBytesBE 4 s.f ++ toBytesBE 4 s.g ++ toBytesBE 4 s.h

/-- SHA-256 digest (32 bytes) of a byte message. -/
def sha256Bytes (msg : List Nat) : List Nat :=
  sha8ToBytes ((chunksOf64 (padMessage msg) ((padMessage msg).length / 64)).foldl
    compressBlock shaH0)

/-- Lowercase hexadecimal digit for a nibble. -/
def hexDigit (n : Nat) : Char :=
  if n < 10 then Char.ofNat (48 + n) else Char.ofNat (87 + n)

/-- Two lowercase hex digits of a byte. -/
def byteToHex (b : Nat) : List Char := [hexDigit (b / 16 % 16), hexDigit (b % 16)]

/-- Lowercase hex string of a byte list. -/
def bytesToHex (bs : List Nat) : String := String.mk ((bs.map byteToHex).flatten)

/-- UTF-8 bytes of a string, as `Nat`s. -/
def utf8Bytes (s : String) : List Nat := s.toUTF8.toList.map (fun b => b.toNat)

/-- SHA-256 lowercase hex digest of the UTF-8 bytes of a string. -/
def sha256Hex (s : String) : String := bytesToHex (sha256Bytes (utf8Bytes s))

/-- `generateHash` in src/main.ts: `createHash('sha256').update(source).digest('hex')`. -/
def generateHash (source : String) : String := sha256Hex source

/-! ### The resolution flow (`process` in src/main.ts) -/

/-- The structured body of the convert POST request built by `fetchImageURL`. -/
structure ConvertRequest where
  url : String
  hash : String
  latexInput : String
  outputScale : String
  outputFormat : String

/-- Vault file-system state as seen through the adapter: known folders and
files with contents.  `adapterExists` answers for both kinds of path. -/
structure FS where
  dirs : List String
  files : List (String × List Nat)

/-- `this.app.vault.adapter.exists(p)`. -/
def FS.adapterExists (fs : FS) (p : String) : Bool :=
  fs.dirs.contains p || fs.files.any (fun f => f.1 == p)

/-- `this.app.vault.createFolder(p)`. -/
def FS.createFolder (fs : FS) (p : String) : FS := ⟨p :: fs.dirs, fs.files⟩

/-- `this.app.vault.createBinary(p, data)`. -/
def FS.createBinary (fs : FS) (p : String) (data : List Nat) : FS :=
  ⟨fs.dirs, (p, data) :: fs.files⟩

/-- Content stored at path `p`, if any. -/
def FS.fileContent (fs : FS) (p : String) : Option (List Nat) :=
  (fs.files.find? (fun f => f.1 == p)).map (fun f => f.2)

/-- Outcome of one browser `fetch` call:
* `rejected` — the promise rejects (e.g. the service is unreachable).
  Nothing in src/main.ts catches this (see the `TODO: fetch() errors`
  comments at the call sites), so the exception propagates out of `process`;
* `notOk` — the promise resolves but `response.ok` is false, so
  `fetchImageURL` / `fetchImage` return `false`;
* `ok payload` — the promise resolves with `response.ok` and the payload. -/
inductive FetchOutcome (α : Type) where
  | rejected
  | notOk
  | ok (payload : α)

/-- Environment of external responses for one invocation:
* `convertResponse req` — outcome of `fetch` on the convert POST;
* `downloadResponse url` — outcome of the artifact GET;
* `getResourcePath` — `this.app.vault.adapter.getResourcePath`. -/
structure Host where
  convertResponse : ConvertRequest → FetchOutcome Result
  downloadResponse : String → FetchOutcome (List Nat)
  getResourcePath : String → String

/-- JS truthiness of the optional `error` string: `undefined` and `""` are
falsy, every other string is truthy. -/
def jsTruthy : Option String → Bool
  | none => false
  | some s => !(s == "")

/-- Observable effects of one `process` invocation.  `aborted` is true when
an uncaught fetch rejection escaped `process`, in which case the invocation
ended before `renderImage` (line 105) and `renders` is empty. -/
structure Trace where
  texDocument : String
  hash : String
  directory : String
  storagePath : String
  convertRequests : List ConvertRequest
  downloadRequests : List String
  folderCreates : List String
  writes : List (String × List Nat)
  renders : List String
  aborted : Bool

/-- The directory prefix computed in `process`:
`settings.texImageDirectory == "vault-subdirectory" ? settings.markdownAttachmentSubdirectory + "/" : ""`
(JS `==` between `null` and a string is false, so `none` yields `""`). -/
def directoryFor (s : TexPluginSettings) : String :=
  if s.texImageDirectory == some "vault-subdirectory" then
    s.markdownAttachmentSubdirectory ++ "/"
  else ""

/-- The convert request as assembled by `fetchImageURL`: POST to
`settings.server + settings.apiPath` with body
`{hash, latexInput, outputScale, outputFormat: "SVG"}`. -/
def convertRequestFor (s : TexPluginSettings) (hash texDocument : String) : ConvertRequest :=
  ⟨s.server ++ s.apiPath, hash, texDocument, s.scale, "SVG"⟩

/-- The storage path derived in `process`: `directory + hash + ".svg"`. -/
def storagePathFor (s : TexPluginSettings) (source : String) : String :=
  directoryFor s ++ generateHash (generateTeXDocument s source) ++ ".svg"

/-- The convert request issued by `process` for settings `s` and fragment `source`. -/
def convertRequestOf (s : TexPluginSettings) (source : String) : ConvertRequest :=
  convertRequestFor s (generateHash (generateTeXDocument s source)) (generateTeXDocument s source)

/-- Lines 81–83 of src/main.ts: create the namespace folder if absent. -/
def dirStepFS (s : TexPluginSettings) (fs : FS) : FS :=
  if !(fs.adapterExists (directoryFor s)) then fs.createFolder (directoryFor s) else fs

/-- `process` in src/main.ts as a pure function over the file system `fs`
and the external environment `host`.  The `Trace` records, in addition to
the derived values, the network requests issued, folders created, binary
writes performed, and the argument passed to `renderImage` (the resource
path of `filename`).  A `FetchOutcome.rejected` fetch throws out of
`process` uncaught: the invocation stops there, `renderImage` is never
reached, and the trace is marked `aborted`.  `result.imageURL!` when the
field is absent yields JS `undefined`, which string concatenation renders
as `"undefined"`; this is modelled by `Option.getD "undefined"`. -/
def process (s : TexPluginSettings) (host : Host) (source : String) (fs : FS) : FS × Trace :=
  let texDocument := generateTeXDocument s source
  let hash := generateHash texDocument
  let directory := directoryFor s
  let creates := if !(fs.adapterExists directory) then [directory] else []
  let fs1 := dirStepFS s fs
  let filename := directory ++ hash ++ ".svg"
  let res := host.getResourcePath filename
  if !(fs1.adapterExists filename) then
    let req := convertRequestFor s hash texDocument
    match host.convertResponse req with
    | FetchOutcome.rejected =>
      (fs1, ⟨texDocument, hash, directory, filename, [req], [], creates, [], [], true⟩)
    | FetchOutcome.notOk =>
      (fs1, ⟨texDocument, hash, directory, filename, [req], [], creates, [], [res], false⟩)
    | FetchOutcome.ok result =>
      if !(jsTruthy result.error) then
        let url := s.server ++ "/" ++ result.imageURL.getD "undefined"
        match host.downloadResponse url with
        | FetchOutcome.rejected =>
          (fs1, ⟨texDocument, hash, directory, filename, [req], [url], creates, [], [], true⟩)
        | FetchOutcome.notOk =>
          (fs1,
           ⟨texDocument, hash, directory, filename, [req], [url], creates, [], [res], false⟩)
        | FetchOutcome.ok data =>
          (fs1.createBinary filename data,
           ⟨texDocument, hash, directory, filename, [req], [url], creates,
            [(filename, data)], [res], false⟩)
      else
        (fs1, ⟨texDocument, hash, directory, filename, [req], [], creates, [], [res], false⟩)
  else
    (fs1, ⟨texDocument, hash, directory, filename, [], [], creates, [], [res], false⟩)

/-- Spec-side phrasing of claim C1: the concatenated line lists with every
pair of consecutive lines joined by a single newline. -/
def joinLinesSpec : List String → String
  | [] => ""
  | [l] => l
  | l :: ls => l ++ "\n" ++ joinLinesSpec ls

/-- The sixteen lowercase hexadecimal digits. -/
def hexChars : List Char := "0123456789abcdef".toList

/-! ### Concrete fixtures used in witness statements -/

/-- A settings value with all line lists empty and no subdirectory policy. -/
def cfg0 : TexPluginSettings := ⟨"s", "/api", [], [], [], [], "100%", none, ".images"⟩

/-- `cfg0` with the `vault` placement policy. -/
def cfgVault : TexPluginSettings := ⟨"s", "/api", [], [], [], [], "100%", some "vault", ".images"⟩

/-- `cfg0` with the `obsidian` placement policy. -/
def cfgObsidian : TexPluginSettings :=
  ⟨"s", "/api", [], [], [], [], "100%", some "obsidian", ".images"⟩

/-- `cfg0` with the `current` placement policy. -/
def cfgCurrent : TexPluginSettings :=
  ⟨"s", "/api", [], [], [], [], "100%", some "current", ".images"⟩

/-- `cfg0` with the `subdirectory` placement policy. -/
def cfgSubdir : TexPluginSettings :=
  ⟨"s", "/api", [], [], [], [], "100%", some "subdirectory", ".images"⟩

/-- The empty vault. -/
def fs0 : FS := ⟨[], []⟩

/-- A vault pre-populated with the artifact for `cfg0` and fragment `"x"`. -/
def fsHit : FS := ⟨[], [(storagePathFor cfg0 "x", [])]⟩

/-- A vault holding an unrelated pre-existing file. -/
def fsPre : FS := ⟨[], [("a", [1])]⟩

/-- Environment whose convert response carries an empty error string. -/
def host0 : Host :=
  ⟨fun _ => FetchOutcome.ok ⟨some "u", some ""⟩, fun _ => FetchOutcome.ok [1], fun p => p⟩

/-- Environment with a successful convert response and download. -/
def hostOk : Host :=
  ⟨fun _ => FetchOutcome.ok ⟨some "r/abc.svg", none⟩,
   fun _ => FetchOutcome.ok [60, 115, 118, 103], fun p => p⟩

/-- Environment whose convert response reports a service error. -/
def hostErr : Host :=
  ⟨fun _ => FetchOutcome.ok ⟨none, some "syntax error"⟩, fun _ => FetchOutcome.ok [1],
   fun p => p⟩

/-- Environment in which every fetch promise rejects (service unreachable). -/
def hostReject : Host :=
  ⟨fun _ => FetchOutcome.rejected, fun _ => FetchOutcome.rejected, fun p => p⟩

/-! ### Helper lemmas: document assembly -/

theorem joinLinesSpec_append_cons (x y : String) (ls : List String) :
    joinLinesSpec ((x ++ y) :: ls) = x ++ joinLinesSpec (y :: ls) := by
  cases ls with
  | nil => rfl
  | cons a as => simp [joinLinesSpec, String.append_assoc]

theorem intercalate_go_newline (ls : List String) : ∀ acc : String,
    String.intercalate.go acc "\n" ls = joinLinesSpec (acc :: ls) := by
  induction ls with
  | nil => intro acc; rfl
  | cons a as ih =>
    intro acc
    have h1 : String.intercalate.go acc "\n" (a :: as)
        = String.intercalate.go (acc ++ "\n" ++ a) "\n" as := rfl
    rw [h1, ih, joinLinesSpec_append_cons]
    simp [joinLinesSpec]

theorem intercalate_newline_eq_joinLinesSpec (ls : List String) :
    String.intercalate "\n" ls = joinLinesSpec ls := by
  cases ls with
  | nil => rfl
  | cons a as => exact intercalate_go_newline as a

/-! ### Helper lemmas: digest length and character set -/

theorem toBytesBE_length (k n : Nat) : (toBytesBE k n).length = k := by
  simp [toBytesBE]

theorem sha8ToBytes_length (st : Sha8) : (sha8ToBytes st).length = 32 := by
  simp [sha8ToBytes, toBytesBE_length]

theorem sha256Bytes_length (msg : List Nat) : (sha256Bytes msg).length = 32 :=
  sha8ToBytes_length _

theorem hexFlatten_length (bs : List Nat) :
    ((bs.map byteToHex).flatten).length = 2 * bs.length := by
  induction bs with
  | nil => rfl
  | cons b t ih => simp [byteToHex, ih]; omega

theorem generateHash_length (source : String) : (generateHash source).length = 64 := by
  show (String.mk (((sha256Bytes (utf8Bytes source)).map byteToHex).flatten)).length = 64
  rw [String.length_mk, hexFlatten_length, sha256Bytes_length]

theorem hexDigit_mem (n : Nat) (hn : n < 16) : hexDigit n ∈ hexChars := by
  interval_cases n <;> decide

theorem byteToHex_mem (b : Nat) : ∀ c ∈ byteToHex b, c ∈ hexChars := by
  intro c hc
  simp [byteToHex] at hc
  rcases hc with rfl | rfl <;>
    exact hexDigit_mem _ (Nat.mod_lt _ (by norm_num))

theorem generateHash_mem_hexChars (source : String) :
    ∀ c ∈ (generateHash source).data, c ∈ hexChars := by
  intro c hc
  have hc' : c ∈ ((sha256Bytes (utf8Bytes source)).map byteToHex).flatten := hc
  rcases List.mem_flatten.1 hc' with ⟨l, hl, hcl⟩
  rcases List.mem_map.1 hl with ⟨b, _, rfl⟩
  exact byteToHex_mem b c hcl

/-! ### Helper lemmas: paths and the file-system model -/

theorem append_hash_svg_ne (dir hsh : String) (hlen : hsh.length = 64) :
    dir ++ hsh ++ ".svg" ≠ dir := by
  intro e
  have h2 := congrArg String.length e
  have h4 : (".svg" : String).length = 4 := by decide
  rw [String.length_append, String.length_append, hlen, h4] at h2
  omega

theorem adapterExists_createFolder_ne (fs : FS) (q p : String) (hne : p ≠ q) :
    (fs.createFolder q).adapterExists p = fs.adapterExists p := by
  simp [FS.adapterExists, FS.createFolder, List.contains_cons, hne]

theorem adapterExists_createFolder_mono (fs : FS) (q p : String)
    (hp : fs.adapterExists p = true) : (fs.createFolder q).adapterExists p = true := by
  simp only [FS.adapterExists, FS.createFolder, List.contains_cons] at hp ⊢
  rcases Bool.or_eq_true_iff.mp hp with h | h <;> rw [h] <;> simp

theorem adapterExists_createBinary_mono (fs : FS) (q : String) (d : List Nat) (p : String)
    (hp : fs.adapterExists p = true) : (fs.createBinary q d).adapterExists p = true := by
  simp only [FS.adapterExists, FS.createBinary, List.any_cons] at hp ⊢
  rcases Bool.or_eq_true_iff.mp hp with h | h <;> rw [h] <;> simp

theorem dirStepFS_files (s : TexPluginSettings) (fs : FS) :
    (dirStepFS s fs).files = fs.files := by
  unfold dirStepFS
  split <;> rfl

theorem dirStepFS_adapterExists_dir (s : TexPluginSettings) (fs : FS) :
    (dirStepFS s fs).adapterExists (directoryFor s) = true := by
  unfold dirStepFS
  split
  · simp [FS.adapterExists, FS.createFolder, List.contains_cons]
  · rename_i h
    simp at h
    exact h

theorem dirStepFS_adapterExists_svg (s : TexPluginSettings) (fs : FS) (source : String) :
    (dirStepFS s fs).adapterExists
        (directoryFor s ++ generateHash (generateTeXDocument s source) ++ ".svg")
      = fs.adapterExists
        (directoryFor s ++ generateHash (generateTeXDocument s source) ++ ".svg") := by
  unfold dirStepFS
  split
  · exact adapterExists_createFolder_ne _ _ _ (append_hash_svg_ne _ _ (generateHash_length _))
  · rfl

theorem fileContent_createBinary_self (fs : FS) (p : String) (d : List Nat) :
    (fs.createBinary p d).fileContent p = some d := by
  simp [FS.createBinary, FS.fileContent]

theorem fileContent_createBinary_ne (fs : FS) (q : String) (d : List Nat) (p : String)
    (hne : p ≠ q) : (fs.createBinary q d).fileContent p = fs.fileContent p := by
  have hb : (q == p) = false := beq_eq_false_iff_ne.2 (Ne.symm hne)
  simp [FS.createBinary, FS.fileContent, List.find?_cons, hb]

/-! ### Characterization of `process` -/

theorem process_texDocument (s : TexPluginSettings) (host : Host) (source : String) (fs : FS) :
    (process s host source fs).2.texDocument = generateTeXDocument s source := by
  simp only [process]
  repeat' split
  all_goals rfl

theorem process_hash (s : TexPluginSettings) (host : Host) (source : String) (fs : FS) :
    (process s host source fs).2.hash = generateHash (generateTeXDocument s source) := by
  simp only [process]
  repeat' split
  all_goals rfl

theorem process_directory (s : TexPluginSettings) (host : Host) (source : String) (fs : FS) :
    (process s host source fs).2.directory = directoryFor s := by
  simp only [process]
  repeat' split
  all_goals rfl

theorem process_storagePath (s : TexPluginSettings) (host : Host) (source : String) (fs : FS) :
    (process s host source fs).2.storagePath = storagePathFor s source := by
  simp only [process]
  repeat' split
  all_goals rfl

theorem process_folderCreates (s : TexPluginSettings) (host : Host) (source : String) (fs : FS) :
    (process s host source fs).2.folderCreates
      = if fs.adapterExists (directoryFor s) then [] else [directoryFor s] := by
  simp only [process]
  repeat' split
  all_goals simp_all

theorem dirStepFS_fileContent (s : TexPluginSettings) (fs : FS) (p : String) :
    (dirStepFS s fs).fileContent p = fs.fileContent p := by
  unfold FS.fileContent
  rw [dirStepFS_files]

theorem process_hit_proj (s : TexPluginSettings) (host : Host) (source : String) (fs : FS)
    (hx : fs.adapterExists (storagePathFor s source) = true) :
    (process s host source fs).1 = dirStepFS s fs ∧
    (process s host source fs).2.convertRequests = [] ∧
    (process s host source fs).2.downloadRequests = [] ∧
    (process s host source fs).2.writes = [] ∧
    (process s host source fs).2.renders
      = [host.getResourcePath (storagePathFor s source)] ∧
    (process s host source fs).2.aborted = false := by
  have h1 : (dirStepFS s fs).adapterExists
      (directoryFor s ++ generateHash (generateTeXDocument s source) ++ ".svg") = true := by
    rw [dirStepFS_adapterExists_svg]; exact hx
  simp [process, h1, storagePathFor]

theorem process_miss_convert_rejected_proj (s : TexPluginSettings) (host : Host)
    (source : String) (fs : FS)
    (hmiss : fs.adapterExists (storagePathFor s source) = false)
    (hc : host.convertResponse (convertRequestOf s source) = FetchOutcome.rejected) :
    (process s host source fs).1 = dirStepFS s fs ∧
    (process s host source fs).2.convertRequests = [convertRequestOf s source] ∧
    (process s host source fs).2.downloadRequests = [] ∧
    (process s host source fs).2.writes = [] ∧
    (process s host source fs).2.renders = [] ∧
    (process s host source fs).2.aborted = true := by
  have h1 : (dirStepFS s fs).adapterExists
      (directoryFor s ++ generateHash (generateTeXDocument s source) ++ ".svg") = false := by
    rw [dirStepFS_adapterExists_svg]; exact hmiss
  have hc' : host.convertResponse (convertRequestFor s
      (generateHash (generateTeXDocument s source)) (generateTeXDocument s source))
      = FetchOutcome.rejected := hc
  simp [process, h1, hc', convertRequestOf]

theorem process_miss_notOk_proj (s : TexPluginSettings) (host : Host) (source : String)
    (fs : FS)
    (hmiss : fs.adapterExists (storagePathFor s source) = false)
    (hc : host.convertResponse (convertRequestOf s source) = FetchOutcome.notOk) :
    (process s host source fs).1 = dirStepFS s fs ∧
    (process s host source fs).2.convertRequests = [convertRequestOf s source] ∧
    (process s host source fs).2.downloadRequests = [] ∧
    (process s host source fs).2.writes = [] ∧
    (process s host source fs).2.renders
      = [host.getResourcePath (storagePathFor s source)] ∧
    (process s host source fs).2.aborted = false := by
  have h1 : (dirStepFS s fs).adapterExists
      (directoryFor s ++ generateHash (generateTeXDocument s source) ++ ".svg") = false := by
    rw [dirStepFS_adapterExists_svg]; exact hmiss
  have hc' : host.convertResponse (convertRequestFor s
      (generateHash (generateTeXDocument s source)) (generateTeXDocument s source))
      = FetchOutcome.notOk := hc
  simp [process, h1, hc', convertRequestOf, storagePathFor]

theorem process_miss_error_proj (s : TexPluginSettings) (host : Host) (source : String)
    (fs : FS) (r : Result)
    (hmiss : fs.adapterExists (storagePathFor s source) = false)
    (hc : host.convertResponse (convertRequestOf s source) = FetchOutcome.ok r)
    (herr : jsTruthy r.error = true) :
    (process s host source fs).1 = dirStepFS s fs ∧
    (process s host source fs).2.convertRequests = [convertRequestOf s source] ∧
    (process s host source fs).2.downloadRequests = [] ∧
    (process s host source fs).2.writes = [] ∧
    (process s host source fs).2.renders
      = [host.getResourcePath (storagePathFor s source)] ∧
    (process s host source fs).2.aborted = false := by
  have h1 : (dirStepFS s fs).adapterExists
      (directoryFor s ++ generateHash (generateTeXDocument s source) ++ ".svg") = false := by
    rw [dirStepFS_adapterExists_svg]; exact hmiss
  have hc' : host.convertResponse (convertRequestFor s
      (generateHash (generateTeXDocument s source)) (generateTeXDocument s source))
      = FetchOutcome.ok r := hc
  simp [process, h1, hc', herr, convertRequestOf, storagePathFor]

theorem process_miss_download_rejected_proj (s : TexPluginSettings) (host : Host)
    (source : String) (fs : FS) (r : Result)
    (hmiss : fs.adapterExists (storagePathFor s source) = false)
    (hc : host.convertResponse (convertRequestOf s source) = FetchOutcome.ok r)
    (herr : jsTruthy r.error = false)
    (hdl : host.downloadResponse (s.server ++ "/" ++ r.imageURL.getD "undefined")
      = FetchOutcome.rejected) :
    (process s host source fs).1 = dirStepFS s fs ∧
    (process s host source fs).2.convertRequests = [convertRequestOf s source] ∧
    (process s host source fs).2.downloadRequests
      = [s.server ++ "/" ++ r.imageURL.getD "undefined"] ∧
    (process s host source fs).2.writes = [] ∧
    (process s host source fs).2.renders = [] ∧
    (process s host source fs).2.aborted = true := by
  have h1 : (dirStepFS s fs).adapterExists
      (directoryFor s ++ generateHash (generateTeXDocument s source) ++ ".svg") = false := by
    rw [dirStepFS_adapterExists_svg]; exact hmiss
  have hc' : host.convertResponse (convertRequestFor s
      (generateHash (generateTeXDocument s source)) (generateTeXDocument s source))
      = FetchOutcome.ok r := hc
  simp [process, h1, hc', herr, hdl, convertRequestOf]

theorem process_miss_download_notOk_proj (s : TexPluginSettings) (host : Host)
    (source : String) (fs : FS) (r : Result)
    (hmiss : fs.adapterExists (storagePathFor s source) = false)
    (hc : host.convertResponse (convertRequestOf s source) = FetchOutcome.ok r)
    (herr : jsTruthy r.error = false)
    (hdl : host.downloadResponse (s.server ++ "/" ++ r.imageURL.getD "undefined")
      = FetchOutcome.notOk) :
    (process s host source fs).1 = dirStepFS s fs ∧
    (process s host source fs).2.convertRequests = [convertRequestOf s source] ∧
    (process s host source fs).2.downloadRequests
      = [s.server ++ "/" ++ r.imageURL.getD "undefined"] ∧
    (process s host source fs).2.writes = [] ∧
    (process s host source fs).2.renders
      = [host.getResourcePath (storagePathFor s source)] ∧
    (process s host source fs).2.aborted = false := by
  have h1 : (dirStepFS s fs).adapterExists
      (directoryFor s ++ generateHash (generateTeXDocument s source) ++ ".svg") = false := by
    rw [dirStepFS_adapterExists_svg]; exact hmiss
  have hc' : host.convertResponse (convertRequestFor s
      (generateHash (generateTeXDocument s source)) (generateTeXDocument s source))
      = FetchOutcome.ok r := hc
  simp [process, h1, hc', herr, hdl, convertRequestOf, storagePathFor]

theorem process_miss_success_proj (s : TexPluginSettings) (host : Host) (source : String)
    (fs : FS) (r : Result) (data : List Nat)
    (hmiss : fs.adapterExists (storagePathFor s source) = false)
    (hc : host.convertResponse (convertRequestOf s source) = FetchOutcome.ok r)
    (herr : jsTruthy r.error = false)
    (hdl : host.downloadResponse (s.server ++ "/" ++ r.imageURL.getD "undefined")
      = FetchOutcome.ok data) :
    (process s host source fs).1
      = (dirStepFS s fs).createBinary (storagePathFor s source) data ∧
    (process s host source fs).2.convertRequests = [convertRequestOf s source] ∧
    (process s host source fs).2.downloadRequests
      = [s.server ++ "/" ++ r.imageURL.getD "undefined"] ∧
    (process s host source fs).2.writes = [(storagePathFor s source, data)] ∧
    (process s host source fs).2.renders
      = [host.getResourcePath (storagePathFor s source)] ∧
    (process s host source fs).2.aborted = false := by
  have h1 : (dirStepFS s fs).adapterExists
      (directoryFor s ++ generateHash (generateTeXDocument s source) ++ ".svg") = false := by
    rw [dirStepFS_adapterExists_svg]; exact hmiss
  have hc' : host.convertResponse (convertRequestFor s
      (generateHash (generateTeXDocument s source)) (generateTeXDocument s source))
      = FetchOutcome.ok r := hc
  simp [process, h1, hc', herr, hdl, convertRequestOf, storagePathFor]

theorem process_fst_adapterExists_dir (s : TexPluginSettings) (host : Host) (source : String)
    (fs : FS) : ((process s host source fs).1).adapterExists (directoryFor s) = true := by
  have h3 := dirStepFS_adapterExists_dir s fs
  cases hx : fs.adapterExists (storagePathFor s source) with
  | true => rw [(process_hit_proj s host source fs hx).1]; exact h3
  | false =>
    cases hc : host.convertResponse (convertRequestOf s source) with
    | rejected =>
      rw [(process_miss_convert_rejected_proj s host source fs hx hc).1]; exact h3
    | notOk => rw [(process_miss_notOk_proj s host source fs hx hc).1]; exact h3
    | ok r =>
      cases herr : jsTruthy r.error with
      | true => rw [(process_miss_error_proj s host source fs r hx hc herr).1]; exact h3
      | false =>
        cases hdl : host.downloadResponse (s.server ++ "/" ++ r.imageURL.getD "undefined") with
        | rejected =>
          rw [(process_miss_download_rejected_proj s host source fs r hx hc herr hdl).1]
          exact h3
        | notOk =>
          rw [(process_miss_download_notOk_proj s host source fs r hx hc herr hdl).1]
          exact h3
        | ok data =>
          rw [(process_miss_success_proj s host source fs r data hx hc herr hdl).1]
          exact adapterExists_createBinary_mono _ _ _ _ h3

theorem trim_x1 : ("x=1" : String).trim = "x=1" := by
  have h1 : Substring.takeWhileAux "x=1" ⟨3⟩ Char.isWhitespace ⟨0⟩ = ⟨0⟩ := by
    unfold Substring.takeWhileAux
    simp [show (("x=1" : String).get 0).isWhitespace = false from by decide]
  have h2 : Substring.takeRightWhileAux "x=1" ⟨0⟩ Char.isWhitespace ⟨3⟩ = ⟨3⟩ := by
    unfold Substring.takeRightWhileAux
    simp [show (("x=1" : String).get (("x=1" : String).prev ⟨3⟩)).isWhitespace = false
      from by decide]
  have e1 : (String.toSubstring "x=1").trim
      = ⟨"x=1", Substring.takeWhileAux "x=1" ⟨3⟩ Char.isWhitespace ⟨0⟩,
         Substring.takeRightWhileAux "x=1"
           (Substring.takeWhileAux "x=1" ⟨3⟩ Char.isWhitespace ⟨0⟩)
           Char.isWhitespace ⟨3⟩⟩ := rfl
  show ((String.toSubstring "x=1").trim).toString = "x=1"
  rw [e1, h1, h2]
  decide

/-! ### The claims -/

/-- C1: for every configuration and fragment, the assembled document equals
the concatenation, in fixed order, of the header (preamble) lines, package
lines, document-header lines, the trimmed fragment, and document-footer
lines, with all lines joined by a single newline and the result trimmed of
leading/trailing whitespace; with all configuration line lists empty and
fragment `"x=1"`, the assembled document equals `"x=1"`. -/
theorem C1_assembled_document (s : TexPluginSettings) (fragment : String) :
    generateTeXDocument s fragment
      = (joinLinesSpec (s.header ++ s.packages ++ s.documentHeader ++
          [fragment.trim] ++ s.documentFooter)).trim
    ∧ (s.header = [] → s.packages = [] → s.documentHeader = [] → s.documentFooter = [] →
        generateTeXDocument s "x=1" = "x=1") := by
  constructor
  · unfold generateTeXDocument
    rw [intercalate_newline_eq_joinLinesSpec]
  · intro h1 h2 h3 h4
    unfold generateTeXDocument
    rw [h1, h2, h3, h4]
    show (String.intercalate "\n" (([] : List String) ++ [] ++ [] ++
      ["x=1".trim] ++ [])).trim = "x=1"
    rw [show (([] : List String) ++ [] ++ [] ++ ["x=1".trim] ++ []) = ["x=1".trim] by simp]
    rw [intercalate_newline_eq_joinLinesSpec]
    show (("x=1" : String).trim).trim = "x=1"
    rw [trim_x1, trim_x1]

/-- C1 witness: the empty-configuration scenario at `cfg0`. -/
theorem C1_witness : generateTeXDocument cfg0 "x=1" = "x=1" :=
  (C1_assembled_document cfg0 "x=1").2 rfl rfl rfl rfl

/-- C2: the cache key is the SHA-256 digest of the assembled document's
UTF-8 bytes in lowercase hexadecimal (64 characters), and the storage path
is the optional namespace directory prefix, then the digest, then `".svg"`. -/
theorem C2_cache_key_and_storage_path (s : TexPluginSettings) (host : Host)
    (source : String) (fs : FS) :
    generateHash (generateTeXDocument s source)
      = bytesToHex (sha256Bytes (utf8Bytes (generateTeXDocument s source)))
    ∧ (generateHash (generateTeXDocument s source)).length = 64
    ∧ (∀ c ∈ (generateHash (generateTeXDocument s source)).data, c ∈ hexChars)
    ∧ (process s host source fs).2.storagePath
        = directoryFor s ++ generateHash (generateTeXDocument s source) ++ ".svg" := by
  refine ⟨rfl, generateHash_length _, generateHash_mem_hexChars _, ?_⟩
  rw [process_storagePath]
  rfl

/-- C2 witness: concrete digest length and storage path shape. -/
theorem C2_witness :
    (generateHash (generateTeXDocument cfg0 "x")).length = 64 ∧
    (process cfg0 host0 "x" fs0).2.storagePath
      = directoryFor cfg0 ++ generateHash (generateTeXDocument cfg0 "x") ++ ".svg" :=
  ⟨(C2_cache_key_and_storage_path cfg0 host0 "x" fs0).2.1,
   (C2_cache_key_and_storage_path cfg0 host0 "x" fs0).2.2.2⟩

/-- C3: determinism — two runs with the same configuration and fragment,
whatever their file-system state and external responses, compute the same
assembled document, the same cache key, and the same storage path. -/
theorem C3_deterministic (s : TexPluginSettings) (source : String) (h1 h2 : Host)
    (fs1 fs2 : FS) :
    (process s h1 source fs1).2.texDocument = (process s h2 source fs2).2.texDocument ∧
    (process s h1 source fs1).2.hash = (process s h2 source fs2).2.hash ∧
    (process s h1 source fs1).2.storagePath = (process s h2 source fs2).2.storagePath :=
  ⟨by rw [process_texDocument, process_texDocument],
   by rw [process_hash, process_hash],
   by rw [process_storagePath, process_storagePath]⟩

/-- C4: cache-hit short-circuit — when the artifact already exists at the
derived storage path, no convert request and no download are issued, nothing
is written, and the existing storage path is handed to the display step. -/
theorem C4_cache_hit_short_circuit (s : TexPluginSettings) (host : Host) (source : String)
    (fs : FS) (hx : fs.adapterExists (storagePathFor s source) = true) :
    (process s host source fs).2.convertRequests = [] ∧
    (process s host source fs).2.downloadRequests = [] ∧
    (process s host source fs).2.writes = [] ∧
    (process s host source fs).2.renders
      = [host.getResourcePath (storagePathFor s source)] := by
  obtain ⟨-, hcr, hdr, hw, hr, -⟩ := process_hit_proj s host source fs hx
  exact ⟨hcr, hdr, hw, hr⟩

/-- C4 witness: a pre-populated vault issues no network requests. -/
theorem C4_witness :
    (process cfg0 host0 "x" fsHit).2.convertRequests = [] ∧
    (process cfg0 host0 "x" fsHit).2.downloadRequests = [] :=
  ⟨(C4_cache_hit_short_circuit cfg0 host0 "x" fsHit
      (by simp [fsHit, FS.adapterExists])).1,
   (C4_cache_hit_short_circuit cfg0 host0 "x" fsHit
      (by simp [fsHit, FS.adapterExists])).2.1⟩

/-- C5 counterexample: the claim as stated fails when the error field holds
the empty string — JS `!result.error` treats `""` as falsy, so the code
proceeds to download and write even though the payload contains an error
string. -/
theorem C5_counterexample :
    ¬ (∀ (s : TexPluginSettings) (host : Host) (source : String) (fs : FS) (r : Result)
        (e : String), host.convertResponse (convertRequestOf s source) = FetchOutcome.ok r →
        r.error = some e →
        (process s host source fs).2.downloadRequests = [] ∧
        (process s host source fs).2.writes = []) := by
  intro hclaim
  have h := hclaim cfg0 host0 "x" fs0 ⟨some "u", some ""⟩ "" rfl rfl
  have hmiss : fs0.adapterExists (storagePathFor cfg0 "x") = false := rfl
  obtain ⟨-, -, hdr, hw, -, -⟩ :=
    process_miss_success_proj cfg0 host0 "x" fs0 ⟨some "u", some ""⟩ [1] hmiss rfl rfl rfl
  rw [hdr, hw] at h
  simp at h

/-- C5 (amended): when the convert request returns a payload whose error
field is a nonempty string, no download is attempted and no artifact is
written. -/
theorem C5_failure_containment (s : TexPluginSettings) (host : Host) (source : String)
    (fs : FS) (r : Result) (e : String)
    (hc : host.convertResponse (convertRequestOf s source) = FetchOutcome.ok r)
    (he : r.error = some e) (hne : e ≠ "") :
    (process s host source fs).2.downloadRequests = [] ∧
    (process s host source fs).2.writes = [] := by
  have herr : jsTruthy r.error = true := by
    rw [he]; simp [jsTruthy, hne]
  cases hx : fs.adapterExists (storagePathFor s source) with
  | true =>
    obtain ⟨-, -, hdr, hw, -, -⟩ := process_hit_proj s host source fs hx
    exact ⟨hdr, hw⟩
  | false =>
    obtain ⟨-, -, hdr, hw, -, -⟩ := process_miss_error_proj s host source fs r hx hc herr
    exact ⟨hdr, hw⟩

/-- C5 witness: a `"syntax error"` payload leads to no download and no write. -/
theorem C5_witness :
    (process cfg0 hostErr "x" fs0).2.downloadRequests = [] ∧
    (process cfg0 hostErr "x" fs0).2.writes = [] :=
  C5_failure_containment cfg0 hostErr "x" fs0 ⟨none, some "syntax error"⟩ "syntax error"
    rfl rfl (by decide)

/-- C6: cache-miss completion — with no pre-existing artifact, a successful
convert response carrying an artifact reference and a successful download
produce exactly one write, at the derived storage path, storing exactly the
downloaded bytes. -/
theorem C6_cache_miss_completion (s : TexPluginSettings) (host : Host) (source : String)
    (fs : FS) (r : Result) (u : String) (data : List Nat)
    (hmiss : fs.adapterExists (storagePathFor s source) = false)
    (hc : host.convertResponse (convertRequestOf s source) = FetchOutcome.ok r)
    (herr : r.error = none) (hurl : r.imageURL = some u)
    (hdl : host.downloadResponse (s.server ++ "/" ++ u) = FetchOutcome.ok data) :
    (process s host source fs).2.writes = [(storagePathFor s source, data)] ∧
    (process s host source fs).1.fileContent (storagePathFor s source) = some data := by
  have herr' : jsTruthy r.error = false := by rw [herr]; rfl
  have hdl' : host.downloadResponse (s.server ++ "/" ++ r.imageURL.getD "undefined")
      = FetchOutcome.ok data := by rw [hurl]; exact hdl
  obtain ⟨hfs, -, -, hw, -, -⟩ :=
    process_miss_success_proj s host source fs r data hmiss hc herr' hdl'
  refine ⟨hw, ?_⟩
  rw [hfs]
  exact fileContent_createBinary_self _ _ _

/-- C6 witness: the spec scenario — `imageURL "r/abc.svg"`, bytes
`[0x3C, 0x73, 0x76, 0x67]`. -/
theorem C6_witness :
    (process cfg0 hostOk "x" fs0).2.writes
      = [(storagePathFor cfg0 "x", [60, 115, 118, 103])] :=
  (C6_cache_miss_completion cfg0 hostOk "x" fs0 ⟨some "r/abc.svg", none⟩ "r/abc.svg"
    [60, 115, 118, 103] rfl rfl rfl rfl rfl).1

/-- C7: artifact immutability — every write targets the derived path, whose
existence check returned false; pre-existing files survive and their content
is unchanged (nothing is overwritten, mutated, or deleted). -/
theorem C7_artifact_immutability (s : TexPluginSettings) (host : Host) (source : String)
    (fs : FS) :
    (∀ w ∈ (process s host source fs).2.writes,
        fs.adapterExists w.1 = false ∧ w.1 = storagePathFor s source) ∧
    (∀ p data, (p, data) ∈ fs.files → (p, data) ∈ (process s host source fs).1.files) ∧
    (∀ p, fs.adapterExists p = true →
        (process s host source fs).1.fileContent p = fs.fileContent p) := by
  have preserved : ∀ fs2 : FS, fs2 = dirStepFS s fs →
      (∀ p data, (p, data) ∈ fs.files → (p, data) ∈ fs2.files) ∧
      (∀ p, fs.adapterExists p = true → fs2.fileContent p = fs.fileContent p) := by
    intro fs2 h2
    subst h2
    exact ⟨fun p data hmem => by rw [dirStepFS_files]; exact hmem,
           fun p _ => dirStepFS_fileContent s fs p⟩
  cases hx : fs.adapterExists (storagePathFor s source) with
  | true =>
    obtain ⟨hfs, -, -, hw, -, -⟩ := process_hit_proj s host source fs hx
    rw [hfs, hw]
    exact ⟨by simp, (preserved (dirStepFS s fs) rfl).1, (preserved (dirStepFS s fs) rfl).2⟩
  | false =>
    cases hc : host.convertResponse (convertRequestOf s source) with
    | rejected =>
      obtain ⟨hfs, -, -, hw, -, -⟩ :=
        process_miss_convert_rejected_proj s host source fs hx hc
      rw [hfs, hw]
      exact ⟨by simp, (preserved (dirStepFS s fs) rfl).1, (preserved (dirStepFS s fs) rfl).2⟩
    | notOk =>
      obtain ⟨hfs, -, -, hw, -, -⟩ := process_miss_notOk_proj s host source fs hx hc
      rw [hfs, hw]
      exact ⟨by simp, (preserved (dirStepFS s fs) rfl).1, (preserved (dirStepFS s fs) rfl).2⟩
    | ok r =>
      cases herr : jsTruthy r.error with
      | true =>
        obtain ⟨hfs, -, -, hw, -, -⟩ := process_miss_error_proj s host source fs r hx hc herr
        rw [hfs, hw]
        exact ⟨by simp, (preserved (dirStepFS s fs) rfl).1,
               (preserved (dirStepFS s fs) rfl).2⟩
      | false =>
        cases hdl : host.downloadResponse (s.server ++ "/" ++ r.imageURL.getD "undefined") with
        | rejected =>
          obtain ⟨hfs, -, -, hw, -, -⟩ :=
            process_miss_download_rejected_proj s host source fs r hx hc herr hdl
          rw [hfs, hw]
          exact ⟨by simp, (preserved (dirStepFS s fs) rfl).1,
                 (preserved (dirStepFS s fs) rfl).2⟩
        | notOk =>
          obtain ⟨hfs, -, -, hw, -, -⟩ :=
            process_miss_download_notOk_proj s host source fs r hx hc herr hdl
          rw [hfs, hw]
          exact ⟨by simp, (preserved (dirStepFS s fs) rfl).1,
                 (preserved (dirStepFS s fs) rfl).2⟩
        | ok data =>
          obtain ⟨hfs, -, -, hw, -, -⟩ :=
            process_miss_success_proj s host source fs r data hx hc herr hdl
          rw [hfs, hw]
          refine ⟨?_, ?_, ?_⟩
          · intro w hwmem
            rcases List.mem_singleton.1 hwmem with rfl
            exact ⟨hx, rfl⟩
          · intro p d hmem
            exact List.mem_cons_of_mem _ (by rw [dirStepFS_files]; exact hmem)
          · intro p hp
            have hne : p ≠ storagePathFor s source := by
              intro e
              rw [e, hx] at hp
              exact Bool.noConfusion hp
            rw [fileContent_createBinary_ne _ _ _ _ hne, dirStepFS_fileContent]

/-- C7 witness: a pre-existing unrelated file survives a full miss run. -/
theorem C7_witness : ("a", [1]) ∈ (process cfg0 host0 "x" fsPre).1.files :=
  (C7_artifact_immutability cfg0 host0 "x" fsPre).2.1 "a" [1] (by simp [fsPre])

/-- C8 counterexample: the claim as stated fails when the service is
unreachable — the convert `fetch` promise rejects, nothing in src/main.ts
catches it (see `TODO: fetch() errors`), the exception escapes `process`
before line 105, and `renderImage` is never invoked. -/
theorem C8_counterexample :
    ¬ (∀ (s : TexPluginSettings) (host : Host) (source : String) (fs : FS),
        (process s host source fs).2.renders
          = [host.getResourcePath (storagePathFor s source)]) := by
  intro hclaim
  have h := hclaim cfg0 hostReject "x" fs0
  have hmiss : fs0.adapterExists (storagePathFor cfg0 "x") = false := rfl
  obtain ⟨-, -, -, -, hr, -⟩ :=
    process_miss_convert_rejected_proj cfg0 hostReject "x" fs0 hmiss rfl
  rw [hr] at h
  simp at h

/-- C8 (amended): on every terminal outcome in which no fetch promise
rejects — cache hit, successful miss, HTTP-level failure of either request,
or a service-reported error — the display step is invoked exactly once,
with the resource path of the storage path deterministically derived from
the hash, even when no artifact exists at that path; equivalently, such an
invocation never aborts on an uncaught exception. -/
theorem C8_display_on_settled_outcomes (s : TexPluginSettings) (host : Host)
    (source : String) (fs : FS)
    (hcv : host.convertResponse (convertRequestOf s source) ≠ FetchOutcome.rejected)
    (hdv : ∀ url, host.downloadResponse url ≠ FetchOutcome.rejected) :
    (process s host source fs).2.renders
      = [host.getResourcePath (storagePathFor s source)] ∧
    (process s host source fs).2.aborted = false := by
  cases hx : fs.adapterExists (storagePathFor s source) with
  | true =>
    obtain ⟨-, -, -, -, hr, ha⟩ := process_hit_proj s host source fs hx
    exact ⟨hr, ha⟩
  | false =>
    cases hc : host.convertResponse (convertRequestOf s source) with
    | rejected => exact absurd hc hcv
    | notOk =>
      obtain ⟨-, -, -, -, hr, ha⟩ := process_miss_notOk_proj s host source fs hx hc
      exact ⟨hr, ha⟩
    | ok r =>
      cases herr : jsTruthy r.error with
      | true =>
        obtain ⟨-, -, -, -, hr, ha⟩ := process_miss_error_proj s host source fs r hx hc herr
        exact ⟨hr, ha⟩
      | false =>
        cases hdl : host.downloadResponse (s.server ++ "/" ++ r.imageURL.getD "undefined") with
        | rejected => exact absurd hdl (hdv _)
        | notOk =>
          obtain ⟨-, -, -, -, hr, ha⟩ :=
            process_miss_download_notOk_proj s host source fs r hx hc herr hdl
          exact ⟨hr, ha⟩
        | ok data =>
          obtain ⟨-, -, -, -, hr, ha⟩ :=
            process_miss_success_proj s host source fs r data hx hc herr hdl
          exact ⟨hr, ha⟩

/-- C8 witness: a service-error run (a FAILED outcome with no artifact)
still renders exactly once with the derived path. -/
theorem C8_witness :
    (process cfg0 hostErr "x" fs0).2.renders
      = [hostErr.getResourcePath (storagePathFor cfg0 "x")] :=
  (C8_display_on_settled_outcomes cfg0 hostErr "x" fs0
    (fun h => FetchOutcome.noConfusion h)
    (fun _ h => FetchOutcome.noConfusion h)).1

/-- C9: idempotent directory creation — the folder is created exactly when
absent; the state used for the artifact existence check and the write always
contains the directory; after a run the directory exists, so a second
invocation performs no creation. -/
theorem C9_idempotent_directory_creation (s : TexPluginSettings) (host host2 : Host)
    (source source2 : String) (fs : FS) :
    (fs.adapterExists (directoryFor s) = false →
      (process s host source fs).2.folderCreates = [directoryFor s]) ∧
    (fs.adapterExists (directoryFor s) = true →
      (process s host source fs).2.folderCreates = []) ∧
    (dirStepFS s fs).adapterExists (directoryFor s) = true ∧
    ((process s host source fs).1).adapterExists (directoryFor s) = true ∧
    (process s host2 source2 ((process s host source fs).1)).2.folderCreates = [] := by
  have h4 := process_fst_adapterExists_dir s host source fs
  refine ⟨?_, ?_, dirStepFS_adapterExists_dir s fs, h4, ?_⟩
  · intro hd; rw [process_folderCreates, hd]; rfl
  · intro hd; rw [process_folderCreates, hd]; rfl
  · rw [process_folderCreates, h4]; rfl

/-- C9 witness: a fresh namespace is created once; the second invocation
creates nothing. -/
theorem C9_witness :
    (process cfg0 host0 "x" fs0).2.folderCreates = [directoryFor cfg0] ∧
    (process cfg0 hostErr "y" ((process cfg0 host0 "x" fs0).1)).2.folderCreates = [] :=
  ⟨(C9_idempotent_directory_creation cfg0 host0 hostErr "x" "y" fs0).1 rfl,
   (C9_idempotent_directory_creation cfg0 host0 hostErr "x" "y" fs0).2.2.2.2⟩

/-- C10: for every `texImageDirectory` value other than
`"vault-subdirectory"` (including `"vault"`, `"obsidian"`, `"current"`,
`"subdirectory"`, and `null`), the directory prefix is the empty string: the
existence check and folder creation run on the empty path, the artifact is
addressed relative to the vault root, and the subdirectory setting has no
effect on the storage path. -/
theorem C10_directory_policy (s : TexPluginSettings) (host : Host) (source : String)
    (fs : FS) (hnot : s.texImageDirectory ≠ some "vault-subdirectory") :
    directoryFor s = "" ∧
    (process s host source fs).2.directory = "" ∧
    (process s host source fs).2.storagePath
      = generateHash (generateTeXDocument s source) ++ ".svg" ∧
    (process s host source fs).2.folderCreates
      = (if fs.adapterExists "" then [] else [""]) ∧
    (∀ sub : String,
      (process ⟨s.server, s.apiPath, s.header, s.documentHeader, s.documentFooter,
        s.packages, s.scale, s.texImageDirectory, sub⟩ host source fs).2.storagePath
        = (process s host source fs).2.storagePath) := by
  have hb : (s.texImageDirectory == some "vault-subdirectory") = false :=
    beq_eq_false_iff_ne.2 hnot
  have hdir : directoryFor s = "" := by simp [directoryFor, hb]
  refine ⟨hdir, ?_, ?_, ?_, ?_⟩
  · rw [process_directory, hdir]
  · rw [process_storagePath]
    unfold storagePathFor
    rw [hdir]
    rfl
  · rw [process_folderCreates, hdir]
  · intro sub
    rw [process_storagePath, process_storagePath]
    unfold storagePathFor
    have hdir2 : directoryFor ⟨s.server, s.apiPath, s.header, s.documentHeader,
        s.documentFooter, s.packages, s.scale, s.texImageDirectory, sub⟩ = "" := by
      simp [directoryFor, hb]
    rw [hdir2, hdir]
    rfl

/-- C10 witness: every non-`vault-subdirectory` policy offered by the UI,
and `null`, yields the empty directory prefix. -/
theorem C10_witness :
    directoryFor cfgVault = "" ∧ directoryFor cfg0 = "" ∧ directoryFor cfgObsidian = "" ∧
    directoryFor cfgCurrent = "" ∧ directoryFor cfgSubdir = "" :=
  ⟨(C10_directory_policy cfgVault host0 "x" fs0 (by decide)).1,
   (C10_directory_policy cfg0 host0 "x" fs0 (by decide)).1,
   (C10_directory_policy cfgObsidian host0 "x" fs0 (by decide)).1,
   (C10_directory_policy cfgCurrent host0 "x" fs0 (by decide)).1,
   (C10_directory_policy cfgSubdir host0 "x" fs0 (by decide)).1⟩
